import Mathlib

/-!
Verification development for the `linear_allocator` C++ repository
(src/cpp/linear_allocator.hpp).  The allocator is a fixed-capacity pool:
a byte buffer of `count_ * elementSize_` bytes, a `std::bitset<320>`
occupancy bitmap (`blocks_status_`), a reverse `std::map` from block
address to slot index (`reserved_blocks_indices_`), a last-freed slot
cache (`freedIndex_`) and an availability counter (`available_count_`).

The shallow embedding below models addresses as natural numbers
(`base + index * elementSize`), the bitset as a `Finset Nat` of set bit
positions together with the bitset's bounds-checked `test`/`set`
operations (which throw `std::out_of_range`  for positions at or above
the fixed width 320), and the `std::map` as an association list with
`std::map` semantics: unique keys, and `operator[]` inserting a
default-constructed value (0) when the key is missing.

Every operation is modelled as a function from the pool state to a pair
of an `Except` outcome and the post-call state: a C++ exception
propagates while the object keeps whatever mutations happened before the
throw, so the state at the throw point is returned alongside the error.
-/

namespace LinearAllocatorModel

/-- Error outcomes of the allocator, one per distinct C++ throw site:
`exhausted` is the `std::length_error("...maximum objects exceeded")`
thrown when `available_count_ < 1`; `unsupported` is the
`std::length_error("...only one object allocation at once")` thrown when
`pCount > 1`; `badAlloc` is the `std::bad_alloc` thrown when the linear
scan finds no free block (and also the constructor's failure when
`malloc` returns null); `outOfRange` is the `std::out_of_range` thrown
by `std::bitset::test`/`set` on a position at or above the bitset width. -/
inductive AllocError where
  | exhausted
  | unsupported
  | badAlloc
  | outOfRange
deriving DecidableEq

deriving instance DecidableEq for Except

/-- The compile-time objects limit: `static constexpr std::size_t
OBJECTS_LIMIT = 320;`, the width of `std::bitset<OBJECTS_LIMIT>`. -/
def OBJECTS_LIMIT : Nat := 320

/-- Lookup in the reverse map (`std::map::find` semantics): the value
stored for key `a`, if present. -/
def mapFind : List (Nat × Nat) → Nat → Option Nat
  | [], _ => none
  | (k, v) :: rest, a => if a = k then some v else mapFind rest a

/-- Insert-or-assign on the reverse map (the effect of
`reserved_blocks_indices_[key] = value;`): replaces the value when the
key is present, appends a new entry otherwise. -/
def mapInsert (m : List (Nat × Nat)) (k v : Nat) : List (Nat × Nat) :=
  match m with
  | [] => [(k, v)]
  | (k', v') :: rest => if k = k' then (k, v) :: rest else (k', v') :: mapInsert rest k v

/-- Erase on the reverse map (`std::map::erase(key)`): removes the entry
for the key when present. -/
def mapErase (m : List (Nat × Nat)) (k : Nat) : List (Nat × Nat) :=
  match m with
  | [] => []
  | (k', v') :: rest => if k = k' then rest else (k', v') :: mapErase rest k

/-- State of one `linear_allocator<T>` instance: `count` is the field
`count_` (the capacity fixed at construction), `elementSize` is
`elementSize_ = sizeof(T)`, `available_count` is `available_count_`,
`base` is the numeric address of the `malloc`ed `buffer_`,
`blocks_status` is the set of indices whose bit is set in the
`std::bitset<320> blocks_status_`, `freedIndex` is `freedIndex_` (the
last-freed cache, 0 meaning none), and `reserved_blocks_indices` is the
reverse `std::map` from block address to slot index. -/
structure AllocState where
  count : Nat
  elementSize : Nat
  available_count : Nat
  base : Nat
  blocks_status : Finset Nat
  freedIndex : Nat
  reserved_blocks_indices : List (Nat × Nat)
deriving DecidableEq

/-- `blocks_status_.test(i)`: returns the bit at position `i`, or throws
`std::out_of_range` when `i` is at or above the bitset width. -/
def bitTest (bits : Finset Nat) (i : Nat) : Except AllocError Bool :=
  if i < OBJECTS_LIMIT then Except.ok (decide (i ∈ bits)) else Except.error AllocError.outOfRange

/-- The constructor `linear_allocator(pCount_)`: records the capacity
and element size, sets `available_count_ = count_`, clears the bitmap,
the reverse map and the freed-index cache, then `malloc`s the buffer and
throws `std::bad_alloc` when the allocation fails.  `mallocOk` abstracts
whether the `malloc` call succeeds, and `base` is the address the
succeeding `malloc` returns.  Note that the constructor performs no
comparison of `pCount` against `OBJECTS_LIMIT`. -/
def mkAllocator (pCount elemSize base : Nat) (mallocOk : Bool) : Except AllocError AllocState :=
  if mallocOk then
    Except.ok
      { count := pCount
        elementSize := elemSize
        available_count := pCount
        base := base
        blocks_status := ∅
        freedIndex := 0
        reserved_blocks_indices := [] }
  else Except.error AllocError.badAlloc

/-- The body of the linear-scan loop of `allocate` (the
`while ( i < count_ )` loop), with the number of iterations still
permitted (`count_ - i`, kept in lockstep with the loop condition) as a
structural fuel argument: scans the bitmap from index `i` for the first
clear bit; on finding one at index `i`, computes the returned pointer as
`buffer_ + ( freedIndex_ * elementSize_ )` — exactly as the source does,
using `freedIndex_` rather than the loop index `i` — sets bit `i`,
stores `(pointer → i)` in the reverse map and returns the pointer; when
the loop runs off the end (`remaining = 0`, i.e. `i ≥ count_`) it throws
`std::bad_alloc`. -/
def scanFrom (s : AllocState) : Nat → Nat → Except AllocError (Option Nat) × AllocState
  | _, 0 => (Except.error AllocError.badAlloc, s)
  | i, remaining + 1 =>
    match bitTest s.blocks_status i with
    | Except.error e => (Except.error e, s)
    | Except.ok true => scanFrom s (i + 1) remaining
    | Except.ok false =>
        let ptr := s.base + s.freedIndex * s.elementSize
        (Except.ok (some ptr),
          { s with
              blocks_status := insert i s.blocks_status
              reserved_blocks_indices := mapInsert s.reserved_blocks_indices ptr i })

/-- The linear-scan loop of `allocate`, entered at index `i`: runs while
`i < count_`, so at most `count_ - i` iterations remain. -/
def scanLoop (s : AllocState) (i : Nat) : Except AllocError (Option Nat) × AllocState :=
  scanFrom s i (s.count - i)

/-- `allocate(pCount)`: throws the exhaustion `length_error` when
`available_count_ < 1`; throws the unsupported `length_error` when
`pCount > 1`; returns `nullptr` when `pCount < 1`; otherwise decrements
`available_count_` by `pCount`, tries the last-freed fast path (when
`freedIndex_ > 0` and that bit is clear, reserves that slot; when the
bit is set, clears `freedIndex_` and falls through), and finally runs
the linear scan from index 0. -/
def allocate (s : AllocState) (pCount : Nat) : Except AllocError (Option Nat) × AllocState :=
  if s.available_count < 1 then
    (Except.error AllocError.exhausted, s)
  else if pCount > 1 then
    (Except.error AllocError.unsupported, s)
  else if pCount < 1 then
    (Except.ok none, s)
  else
    let s1 : AllocState := { s with available_count := s.available_count - pCount }
    if s1.freedIndex > 0 then
      match bitTest s1.blocks_status s1.freedIndex with
      | Except.error e => (Except.error e, s1)
      | Except.ok false =>
          let ptr := s1.base + s1.freedIndex * s1.elementSize
          (Except.ok (some ptr),
            { s1 with
                blocks_status := insert s1.freedIndex s1.blocks_status
                reserved_blocks_indices := mapInsert s1.reserved_blocks_indices ptr s1.freedIndex
                freedIndex := 0 })
      | Except.ok true => scanLoop { s1 with freedIndex := 0 } 0
    else scanLoop s1 0

/-- `deallocate(ptr_, size_)`: after running the destructor (no
bookkeeping effect), reads `reserved_blocks_indices_[ptr_]` — with
`std::map::operator[]` semantics, inserting value 0 when the key is
missing — then clears the occupancy bit at that index (a bounds-checked
`bitset::set`), caches the index in `freedIndex_`, erases the map entry
and increments `available_count_` by `size_`.  No branch reports an
unknown address. -/
def deallocate (s : AllocState) (ptr size_ : Nat) : Except AllocError Unit × AllocState :=
  let lookup := mapFind s.reserved_blocks_indices ptr
  let index_ : Nat :=
    match lookup with
    | some v => v
    | none => 0
  let m1 : List (Nat × Nat) :=
    match lookup with
    | some _ => s.reserved_blocks_indices
    | none => mapInsert s.reserved_blocks_indices ptr 0
  if index_ < OBJECTS_LIMIT then
    (Except.ok (),
      { s with
          blocks_status := s.blocks_status.erase index_
          freedIndex := index_
          reserved_blocks_indices := mapErase m1 ptr
          available_count := s.available_count + size_ })
  else (Except.error AllocError.outOfRange, { s with reserved_blocks_indices := m1 })

/-- `available_size()`: returns `available_count_`. -/
def available_size (s : AllocState) : Nat := s.available_count

/-- `reserved_size()`: returns `count_ - available_count_`. -/
def reserved_size (s : AllocState) : Nat := s.count - s.available_count

/-- `operator==`: `return( true );` — unconditionally true, for any pair
of allocator instances. -/
def operatorEq (_a _b : AllocState) : Bool := true

/-- `operator!=`: its body is `return( *this != pOther );`, a call to
itself on the same operands.  `fuel` bounds the depth of the C++ call
stack being modelled; the result is `none` when the recursion has not
produced a value within that depth. -/
def operatorNeqFuel : Nat → AllocState → AllocState → Option Bool
  | 0, _, _ => none
  | n + 1, a, b => operatorNeqFuel n a b

/-! Concrete pool states used in the theorems below. -/

/-- A freshly constructed `linear_allocator<double>( 1 )`: capacity 1,
element size 8, buffer at address 100, all bits clear, empty reverse
map, no last-freed cache. -/
def pool1 : AllocState :=
  { count := 1, elementSize := 8, available_count := 1, base := 100,
    blocks_status := ∅, freedIndex := 0, reserved_blocks_indices := [] }

/-- A freshly constructed `linear_allocator<double>( 2 )`: capacity 2,
element size 8, buffer at address 100. -/
def pool2 : AllocState :=
  { count := 2, elementSize := 8, available_count := 2, base := 100,
    blocks_status := ∅, freedIndex := 0, reserved_blocks_indices := [] }

/-- The exhausted capacity-1 pool: `pool1` after its single successful
allocation (slot 0 reserved, `available_count_ = 0`). -/
def exhausted1 : AllocState := (allocate pool1 1).2

/-- The bookkeeping equation of the spec,
`availableCount == capacity − popcount(bitmap)`, stated additively:
`available_count_ + popcount(blocks_status_) = count_`. -/
def counterInvariant (s : AllocState) : Prop :=
  s.available_count + s.blocks_status.card = s.count

instance (s : AllocState) : Decidable (counterInvariant s) := by
  unfold counterInvariant; infer_instance

/-! Helper lemmas about the embedded operations. -/

lemma bitTest_ok_true {bits : Finset Nat} {i : Nat}
    (h : bitTest bits i = Except.ok true) : i < OBJECTS_LIMIT ∧ i ∈ bits := by
  unfold bitTest at h
  split at h <;> simp_all

lemma bitTest_ok_false {bits : Finset Nat} {i : Nat}
    (h : bitTest bits i = Except.ok false) : i < OBJECTS_LIMIT ∧ i ∉ bits := by
  unfold bitTest at h
  split at h <;> simp_all

lemma mapFind_mapInsert_self (m : List (Nat × Nat)) (k v : Nat) :
    mapFind (mapInsert m k v) k = some v := by
  induction m with
  | nil => simp [mapInsert, mapFind]
  | cons hd tl ih =>
      obtain ⟨k', v'⟩ := hd
      by_cases hk : k = k' <;> simp [mapInsert, mapFind, hk, ih]

/-- What a successful run of the scan loop does: some index `j` in
scanning range had a clear bit; that bit is set, the entry
`(base + freedIndex * elementSize) ↦ j` is stored in the reverse map,
and the returned pointer is `base + freedIndex * elementSize` —
independent of `j`. -/
lemma scanFrom_ok_spec (s : AllocState) :
    ∀ (remaining i : Nat) (r : Option Nat) (s' : AllocState),
      scanFrom s i remaining = (Except.ok r, s') →
      ∃ j, j ∉ s.blocks_status ∧ j < OBJECTS_LIMIT ∧
        r = some (s.base + s.freedIndex * s.elementSize) ∧
        s' = { s with
                 blocks_status := insert j s.blocks_status
                 reserved_blocks_indices :=
                   mapInsert s.reserved_blocks_indices
                     (s.base + s.freedIndex * s.elementSize) j } := by
  intro remaining
  induction remaining with
  | zero =>
      intro i r s' h
      simp [scanFrom] at h
  | succ n ih =>
      intro i r s' h
      simp only [scanFrom] at h
      split at h
      · simp at h
      · exact ih (i + 1) r s' h
      · rename_i hbt
        obtain ⟨hlt, hmem⟩ := bitTest_ok_false hbt
        obtain ⟨hr, hs⟩ := Prod.mk.injEq .. ▸ h
        refine ⟨i, hmem, hlt, ?_, hs.symm⟩
        simpa using hr.symm

/-- What a successful `allocate` call does: the pool was not exhausted,
and either the request was for zero blocks (null result, state
untouched) or for exactly one block, in which case some slot `j` with a
clear bit (below the bitset width) gets its bit set, an entry `p ↦ j`
enters the reverse map for the returned pointer `p`, and the available
counter drops by one. -/
lemma allocate_ok_spec (s : AllocState) (pCount : Nat) (r : Option Nat) (s' : AllocState)
    (h : allocate s pCount = (Except.ok r, s')) :
    1 ≤ s.available_count ∧
    ((pCount = 0 ∧ r = none ∧ s' = s) ∨
     (pCount = 1 ∧ ∃ p j, r = some p ∧ j ∉ s.blocks_status ∧ j < OBJECTS_LIMIT ∧
        s'.count = s.count ∧ s'.elementSize = s.elementSize ∧ s'.base = s.base ∧
        s'.available_count = s.available_count - 1 ∧
        s'.blocks_status = insert j s.blocks_status ∧
        s'.reserved_blocks_indices = mapInsert s.reserved_blocks_indices p j)) := by
  unfold allocate at h
  split at h
  · simp at h
  rename_i hav
  split at h
  · simp at h
  rename_i hgt
  split at h
  · rename_i hlt
    obtain ⟨hr, hs⟩ := Prod.mk.injEq .. ▸ h
    refine ⟨by omega, Or.inl ⟨by omega, ?_, hs.symm⟩⟩
    simpa using hr.symm
  rename_i hge
  have hone : pCount = 1 := by omega
  subst hone
  refine ⟨by omega, Or.inr ⟨rfl, ?_⟩⟩
  dsimp only at h
  split at h
  · rename_i hfree
    split at h
    · simp at h
    · rename_i hbt
      obtain ⟨hlt, hmem⟩ := bitTest_ok_false hbt
      obtain ⟨hr, hs⟩ := Prod.mk.injEq .. ▸ h
      refine ⟨s.base + s.freedIndex * s.elementSize, s.freedIndex,
        by simpa using hr.symm, ?_, ?_, ?_⟩
      · simpa using hmem
      · simpa using hlt
      · subst hs; simp
    · rename_i hbt
      simp only [scanLoop] at h
      obtain ⟨j, hmem, hlt, hr, hs⟩ := scanFrom_ok_spec _ _ _ _ _ h
      exact ⟨_, j, hr, by simpa using hmem, hlt, by subst hs; simp⟩
  · rename_i hfree
    simp only [scanLoop] at h
    obtain ⟨j, hmem, hlt, hr, hs⟩ := scanFrom_ok_spec _ _ _ _ _ h
    exact ⟨_, j, hr, by simpa using hmem, hlt, by subst hs; simp⟩

/-- The state reached from a fresh capacity-1 pool by deallocating the
untracked address 999 and then allocating once: `available_count_ = 1`
while every slot's bit is set. -/
def weird1 : AllocState := (allocate (deallocate pool1 999 1).2 1).2

/-! Theorems settling the claims. -/

/-- C1: the claim states that a linear-scan allocation returns the
address of the very slot it marks occupied and records in the reverse
index.  The code computes the returned pointer as
`buffer_ + ( freedIndex_ * elementSize_ )` instead of using the loop
index, and `freedIndex_` is always 0 on the scan path: on a fresh
capacity-2 pool the second allocation scans to the free slot at index 1,
sets bit 1, records `(address 100 ↦ 1)` — yet returns address 100,
which is slot 0's address, not slot 1's address 108. -/
theorem scan_path_address_mismatch :
    (allocate pool2 1).2.blocks_status = {0} ∧
    (allocate (allocate pool2 1).2 1).1 = Except.ok (some 100) ∧
    (allocate (allocate pool2 1).2 1).2.blocks_status = {0, 1} ∧
    mapFind (allocate (allocate pool2 1).2 1).2.reserved_blocks_indices 100 = some 1 ∧
    pool2.base + 1 * pool2.elementSize = 108 ∧ (100 : Nat) ≠ 108 := by decide

/-- C2: the claim states that deallocating an address never returned by
`allocate` fails with an InvalidAddress error and changes nothing.  The
code looks the address up with `std::map::operator[]`, which silently
inserts index 0 on a miss; the call then returns normally, clears bit 0
and increments `available_count_`.  On the exhausted capacity-1 pool,
deallocating the untracked address 999 succeeds, bumps
`available_count_` from 0 to 1 and clears the occupancy bit of slot 0. -/
theorem deallocate_unknown_address_mutates :
    mapFind exhausted1.reserved_blocks_indices 999 = none ∧
    (deallocate exhausted1 999 1).1 = Except.ok () ∧
    available_size exhausted1 = 0 ∧
    available_size (deallocate exhausted1 999 1).2 = 1 ∧
    exhausted1.blocks_status = {0} ∧
    (deallocate exhausted1 999 1).2.blocks_status = ∅ := by decide

/-- C3: the claim states every failing operation leaves the bookkeeping
exactly as before the call.  `allocate` decrements `available_count_`
before searching for a free block, so when the scan finds none and
throws `std::bad_alloc`, the decrement persists.  The state `weird1`
(reached from a fresh capacity-1 pool by one invalid deallocate and one
allocate) has `available_count_ = 1` with all slots occupied; calling
`allocate` on it fails with `bad_alloc` yet leaves
`available_count_ = 0`. -/
theorem allocate_failure_mutates_state :
    available_size weird1 = 1 ∧
    (allocate weird1 1).1 = Except.error AllocError.badAlloc ∧
    available_size (allocate weird1 1).2 = 0 ∧
    (allocate weird1 1).2 ≠ weird1 := by decide

/-- C4 counterexample: the claim states that in every state reachable by
construction, allocate and deallocate calls,
`availableCount = capacity − popcount(bitmap)`.  One `deallocate` of the
untracked address 999 on a fresh capacity-1 pool yields a reachable
state with `available_count_ = 2`, capacity 1 and empty bitmap, so the
equation fails. -/
theorem counter_equation_cex :
    (deallocate pool1 999 1).2.available_count = 2 ∧
    (deallocate pool1 999 1).2.count - (deallocate pool1 999 1).2.blocks_status.card = 1 ∧
    ¬ counterInvariant (deallocate pool1 999 1).2 := by decide

/-- C4 amended: the equation `available_count_ + popcount = count_`
holds after construction, is preserved by every `allocate` call that
returns without throwing, and is preserved by every single-block
`deallocate` whose address is currently tracked in the reverse index
with its slot bit set.  (A deallocate of an untracked address, or an
allocate failing after the counter decrement, can break it.) -/
theorem counter_equation_preservation :
    (∀ pc es b s, mkAllocator pc es b true = Except.ok s → counterInvariant s) ∧
    (∀ s pc r s', counterInvariant s → allocate s pc = (Except.ok r, s') →
      counterInvariant s') ∧
    (∀ s ptr idx u s', counterInvariant s →
      mapFind s.reserved_blocks_indices ptr = some idx → idx ∈ s.blocks_status →
      deallocate s ptr 1 = (u, s') → counterInvariant s') := by
  refine ⟨?_, ?_, ?_⟩
  · intro pc es b s h
    simp only [mkAllocator, if_pos] at h
    obtain rfl := Except.ok.inj h
    simp [counterInvariant]
  · intro s pc r s' hinv h
    obtain ⟨hav, hcase⟩ := allocate_ok_spec s pc r s' h
    rcases hcase with ⟨_, _, rfl⟩ | ⟨_, p, j, _, hmem, _, hcnt, _, _, havail, hbits, _⟩
    · exact hinv
    · unfold counterInvariant at hinv ⊢
      rw [hcnt, havail, hbits, Finset.card_insert_of_not_mem hmem]
      omega
  · intro s ptr idx u s' hinv hfind hmem h
    unfold deallocate at h
    simp only [hfind] at h
    split at h
    · obtain ⟨_, hs⟩ := Prod.mk.injEq .. ▸ h
      subst hs
      unfold counterInvariant at hinv ⊢
      simp only [Finset.card_erase_of_mem hmem]
      have hcard : 1 ≤ s.blocks_status.card := Finset.card_pos.mpr ⟨idx, hmem⟩
      omega
    · obtain ⟨_, hs⟩ := Prod.mk.injEq .. ▸ h
      subst hs
      exact hinv

/-- C4 witness: the preservation part of the amended statement applied
to the fresh capacity-2 pool and its first allocation. -/
theorem counter_equation_preservation_witness :
    counterInvariant (allocate pool2 1).2 :=
  counter_equation_preservation.2.1 pool2 1 (some 100) (allocate pool2 1).2
    (by decide) (by decide)

/-- C5: the claim states that construction fails with a capacity error
when the requested capacity exceeds the 320-bit bitmap width.  The
constructor performs no such check: requesting capacity 321 (with the
buffer allocation succeeding) produces a fully initialized pool instance
with `available_count_ = 321`. -/
theorem construction_ignores_bitmap_width :
    OBJECTS_LIMIT < 321 ∧
    mkAllocator 321 8 100 true = Except.ok
      { count := 321, elementSize := 8, available_count := 321, base := 100,
        blocks_status := ∅, freedIndex := 0, reserved_blocks_indices := [] } := by decide

/-- C6 counterexample: the claim states that a multi-block request fails
with Unsupported on every pool state, including an exhausted one.  On
the exhausted capacity-1 pool, `allocate(5)` fails with the exhaustion
error instead, because the `available_count_ < 1` check precedes the
`pCount > 1` check. -/
theorem multi_block_on_exhausted_cex :
    available_size exhausted1 = 0 ∧
    (allocate exhausted1 5).1 = Except.error AllocError.exhausted ∧
    (allocate exhausted1 5).1 ≠ Except.error AllocError.unsupported := by decide

/-- C6 amended: on a pool with at least one free slot, requesting more
than one block fails with the unsupported error and leaves the state
(hence `available_count()`) unchanged; on an exhausted pool the same
request fails with the exhaustion error instead, also leaving the state
unchanged. -/
theorem multi_block_request (s : AllocState) (pCount : Nat) (hcnt : 1 < pCount) :
    (1 ≤ s.available_count →
      allocate s pCount = (Except.error AllocError.unsupported, s)) ∧
    (s.available_count = 0 →
      allocate s pCount = (Except.error AllocError.exhausted, s)) := by
  constructor
  · intro hav
    unfold allocate
    rw [if_neg (by omega), if_pos (by omega)]
  · intro hav
    unfold allocate
    rw [if_pos (by omega)]

/-- C6 witness: `allocate(2)` on the fresh capacity-2 pool fails with
the unsupported error and returns the state untouched. -/
theorem multi_block_request_witness :
    allocate pool2 2 = (Except.error AllocError.unsupported, pool2) :=
  (multi_block_request pool2 2 (by decide)).1 (by decide)

/-- C7 counterexample: the claim states that `allocate(0)` is a no-op
returning a null result on every pool state, including an exhausted one.
On the exhausted capacity-1 pool, `allocate(0)` fails with the
exhaustion error instead of returning a null pointer, because the
`available_count_ < 1` check precedes the `pCount < 1` check. -/
theorem zero_block_on_exhausted_cex :
    available_size exhausted1 = 0 ∧
    (allocate exhausted1 0).1 = Except.error AllocError.exhausted ∧
    (allocate exhausted1 0).1 ≠ Except.ok none := by decide

/-- C7 amended: on a pool with at least one free slot, `allocate(0)`
returns a null pointer and leaves the state (counter, bitmap, reverse
index, last-freed cache) unchanged; on an exhausted pool it fails with
the exhaustion error instead, also leaving the state unchanged. -/
theorem zero_block_request (s : AllocState) (hav : 1 ≤ s.available_count) :
    allocate s 0 = (Except.ok none, s) := by
  unfold allocate
  rw [if_neg (by omega), if_neg (by omega), if_pos (by omega)]

/-- C7 witness: `allocate(0)` on the fresh capacity-1 pool returns null
and the untouched state. -/
theorem zero_block_request_witness :
    allocate pool1 0 = (Except.ok none, pool1) :=
  zero_block_request pool1 (by decide)

/-- C8: the claim states that equality between two distinct pool
instances is judged false.  The code's `operator==` is
`return( true );`: it reports equality — i.e. that blocks from one pool
may be deallocated through the other — unconditionally, here for two
distinct pools of different capacities. -/
theorem operator_eq_true_for_distinct_pools :
    pool1 ≠ pool2 ∧ operatorEq pool1 pool2 = true := by decide

/-- C9: on any pool state, a successful single-block `allocate`
immediately followed by `deallocate` of the returned address restores
`available_count()` to its value before the pair: allocate decrements
the counter by one and records the returned address in the reverse
index, so the deallocate finds it (at an index below the bitset width)
and increments the counter by one. -/
theorem roundtrip_preserves_available (s : AllocState) (p : Nat) (s1 : AllocState)
    (h : allocate s 1 = (Except.ok (some p), s1)) :
    available_size (deallocate s1 p 1).2 = available_size s := by
  obtain ⟨hav, hcase⟩ := allocate_ok_spec s 1 (some p) s1 h
  rcases hcase with ⟨h0, _, _⟩ | ⟨_, p', j, hp, _, hlt, _, _, _, havail, _, hmap⟩
  · exact absurd h0 (by omega)
  · obtain rfl : p = p' := Option.some.inj hp
    have hfind : mapFind s1.reserved_blocks_indices p = some j := by
      rw [hmap]; exact mapFind_mapInsert_self ..
    unfold deallocate
    simp only [hfind]
    rw [if_pos hlt]
    simp only [available_size]
    omega

/-- C9 witness: on the fresh capacity-2 pool, allocating (address 100)
and deallocating it leaves `available_count()` at 2. -/
theorem roundtrip_preserves_available_witness :
    available_size (deallocate (allocate pool2 1).2 100 1).2 = available_size pool2 :=
  roundtrip_preserves_available pool2 100 (allocate pool2 1).2 (by decide)

/-- C10: `operator!=`'s body calls itself on the same operands, so no
finite call depth produces a result: for every fuel bound and every pair
of allocator states the modelled recursion yields no value. -/
theorem operator_neq_no_result :
    ∀ (fuel : Nat) (a b : AllocState), operatorNeqFuel fuel a b = none := by
  intro fuel
  induction fuel with
  | zero => intro a b; rfl
  | succ n ih => intro a b; exact ih a b

end LinearAllocatorModel
